import Mathlib

/-!
Shallow embedding of the plugger host/plugin RPC engines (plugger.go).
Go maps keyed by request identifier are modelled as association lists with
overwrite-on-insert; Go `error` values are `Option String` (none = nil) or a
dedicated inductive where the caller distinguishes error kinds.
-/

namespace Plugger

/-- Model of `json.RawMessage`: `none` is a nil RawMessage (field absent on
the wire due to `omitempty`). -/
abbrev RawMsg := Option String

/-- The JSON based wire format (struct `envelope` in plugger.go). Zero values
model absent/omitempty fields. -/
structure Envelope where
  cancel : String := ""
  id : String := ""
  method : String := ""
  error : String := ""
  data : RawMsg := none
deriving DecidableEq, Repr

/-- Go-map deletion: `delete(m, k)` removes the entry for `k`. -/
def eraseKey {α : Type} (m : List (String × α)) (k : String) : List (String × α) :=
  m.filter (fun p => p.1 ≠ k)

/-- Go-map insertion: `m[k] = v` overwrites any existing entry for `k`. -/
def insertKey {α : Type} (m : List (String × α)) (k : String) (v : α) : List (String × α) :=
  (k, v) :: eraseKey m k

/-! ## Host engine -/

/-- Startup gate of a `Host`: `wgReleased` is true once `h.wgRun.Done()` has
run (RunPlugin reached `h.running.Store(true); h.wgRun.Done()`), `running`
mirrors `h.running`. -/
structure HostGate where
  wgReleased : Bool
  running : Bool
deriving DecidableEq, Repr

/-- `NewHost`: empty host with `wgRun.Add(1)` pending and not running. -/
def newHost : HostGate := ⟨false, false⟩

/-- Lifecycle events that change the startup gate of a host. -/
inductive HostLifeEvent where
  | startSucceeded
  | startFailedEarly
  | closed
deriving DecidableEq, Repr

/-- Effect of one lifecycle event on the gate: a successful RunPlugin stores
`running = true` and releases `wgRun`; a RunPlugin that fails before those two
lines changes nothing; `Close` swaps `running` to false. -/
def applyLife (g : HostGate) : HostLifeEvent → HostGate
  | .startSucceeded => ⟨true, true⟩
  | .startFailedEarly => g
  | .closed => { g with running := false }

/-- Gate reached from `NewHost` after a sequence of lifecycle events. -/
def hostGateAfter (trace : List HostLifeEvent) : HostGate :=
  trace.foldl applyLife newHost

/-- Outcome of the front of `Call`: `h.wgRun.Wait()` blocks while the counter
is nonzero; afterwards a non-running host gives `ErrClosed`, otherwise the
call proceeds. -/
inductive CallStart where
  | blocked
  | errClosed
  | proceed
deriving DecidableEq, Repr

/-- Front of `Call` (plugger.go `h.wgRun.Wait()` then the `running` check). -/
def callStart (g : HostGate) : CallStart :=
  if !g.wgReleased then .blocked
  else if !g.running then .errClosed
  else .proceed

/-- Error kinds a `Call` invocation can return. -/
inductive CallError where
  | closed
  | errorResponse (msg : String)
  | malformedResponse (wrapped : String)
  | encodeFailed (e : String)
  | ctxErr (e : String)
  | marshalRequest (wrapped : String)
deriving DecidableEq, Repr

/-- Message of each call error (`err.Error()` on the Go side):
`ErrClosed` is `errors.New("closed")`; `ErrorResponse` is the raw string;
the malformed case is `fmt.Errorf` wrapping `ErrMalformedResponse`. -/
def CallError.message : CallError → String
  | .closed => "closed"
  | .errorResponse m => m
  | .malformedResponse w => "malformed response: " ++ w
  | .encodeFailed e => e
  | .ctxErr e => e
  | .marshalRequest w => "marshaling request: " ++ w

/-- Model of `json.Unmarshal(data, &zero)` for a response payload: a nil
RawMessage fails with the decoder's end-of-input error, otherwise the typed
decoder `dec` for the concrete `Resp` type decides. -/
def unmarshal {α : Type} (dec : String → Except String α) : RawMsg → Except String α
  | none => .error "unexpected end of JSON input"
  | some s => dec s

/-- Response branch of `Call` after an envelope was received (`ok == true`):
a non-empty `err` field becomes an `ErrorResponse`, otherwise the payload is
unmarshalled, wrapping a decode failure in `ErrMalformedResponse`. -/
def callOnResponse {α : Type} (dec : String → Except String α) (ev : Envelope) :
    Except CallError α :=
  if ev.error ≠ "" then .error (.errorResponse ev.error)
  else
    match unmarshal dec ev.data with
    | .error e => .error (.malformedResponse e)
    | .ok v => .ok v

/-- State of one outstanding call's delivery channel (buffered, size 1). -/
inductive SlotState where
  | waiting
  | delivered (ev : Envelope)
  | closedEmpty
  | closedDelivered (ev : Envelope)
deriving DecidableEq, Repr

/-- Effect of `close(ch)` on a slot: a buffered envelope survives the close. -/
def closeSlot : SlotState → SlotState
  | .waiting => .closedEmpty
  | .delivered ev => .closedDelivered ev
  | .closedEmpty => .closedEmpty
  | .closedDelivered ev => .closedDelivered ev

/-- What a receive (`ev, ok := <-wait`) yields on a slot: `none` when the
caller would still block; `some (some ev)` for a value with `ok = true`;
`some none` for a closed empty channel, `ok = false`. -/
def receiveSlot : SlotState → Option (Option Envelope)
  | .waiting => none
  | .delivered ev => some (some ev)
  | .closedDelivered ev => some (some ev)
  | .closedEmpty => some none

/-- Delivery branch of `Call`'s select (`case ev, ok := <-wait`): the pending
entry is deleted first; `ok == false` returns `ErrClosed`, otherwise the
response branch decides. -/
def callOnDelivery {α : Type} (dec : String → Except String α)
    (pending : List (String × SlotState)) (id : String) (recv : Option Envelope) :
    List (String × SlotState) × Except CallError α :=
  let pending := eraseKey pending id
  match recv with
  | none => (pending, .error .closed)
  | some ev => (pending, callOnResponse dec ev)

/-- Cancellation branch of `Call`'s select (`case <-ctx.Done()`): deletes the
pending entry, encodes `envelope{Cancel: id}`, and returns the encode error if
encoding failed, else the context's error. `encodeErr` is the result of
`h.enc.Encode`; the returned `Envelope` is the value passed to the encoder. -/
def callOnCtxDone (pending : List (String × SlotState)) (id : String)
    (encodeErr : Option String) (ctxError : String) :
    List (String × SlotState) × Envelope × CallError :=
  let pending := eraseKey pending id
  let sent : Envelope := { cancel := id }
  match encodeErr with
  | some e => (pending, sent, .encodeFailed e)
  | none => (pending, sent, .ctxErr ctxError)

/-- One inbound decode attempt seen by the host's demultiplexing loop. -/
inductive DecodeEvent where
  | ok (ev : Envelope)
  | fail (e : String)
deriving DecidableEq, Repr

/-- Terminal description of the host's demultiplexing loop `(*Host).run`. -/
inductive HostRunOutcome where
  | running (pending : List (String × SlotState))
  | terminated (pending : List (String × SlotState)) (err : String)
  | blockedSend (pending : List (String × SlotState)) (id : String)
  | panicSend (pending : List (String × SlotState)) (id : String)
deriving DecidableEq, Repr

/-- Broadcast on decode failure: `for _, ch := range h.pending close(ch)`. -/
def broadcastClose (pending : List (String × SlotState)) : List (String × SlotState) :=
  pending.map (fun p => (p.1, closeSlot p.2))

/-- The demultiplexing loop `(*Host).run` over a sequence of decode results:
a decode failure closes every registered slot and returns the error; a decoded
envelope is delivered to the slot registered under its `id` (dropped when no
entry exists); a send on a full buffer blocks, on a closed channel panics. -/
def hostRun (pending : List (String × SlotState)) :
    List DecodeEvent → HostRunOutcome
  | [] => .running pending
  | .fail e :: _ => .terminated (broadcastClose pending) e
  | .ok ev :: rest =>
    match pending.lookup ev.id with
    | none => hostRun pending rest
    | some .waiting => hostRun (insertKey pending ev.id (.delivered ev)) rest
    | some (.delivered _) => .blockedSend pending ev.id
    | some .closedEmpty => .panicSend pending ev.id
    | some (.closedDelivered _) => .panicSend pending ev.id

/-- Tail of a successful `RunPlugin`: after wiring streams and releasing the
startup gate it returns `h.run(ctx)`, so its result is the loop's result. -/
def runPluginStarted (pending : List (String × SlotState))
    (events : List DecodeEvent) : HostRunOutcome :=
  hostRun pending events

/-! ## Host shutdown -/

/-- Process-facing state of a `Host` relevant to `Close`: the `running` flag,
whether stdin closer and child command handles are set, whether stdin has been
closed, how often `cmd.Wait()` ran, and the child's wait result (`none` for a
clean exit, `some e` for an exit error). -/
structure HostProc where
  running : Bool
  hasCloser : Bool
  hasCmd : Bool
  stdinClosed : Bool
  waitCount : Nat
  waitErr : Option String
deriving DecidableEq, Repr

/-- The `(*Host).Close` operation: swaps `running` to false; when it was not
running, returns nil at once; otherwise closes stdin (if set) and waits for
the child (if set), returning the wait result. -/
def closeHost (s : HostProc) : HostProc × Option String :=
  let wasRunning := s.running
  let s := { s with running := false }
  if !wasRunning then (s, none)
  else
    let s := if s.hasCloser then { s with stdinClosed := true } else s
    if s.hasCmd then ({ s with waitCount := s.waitCount + 1 }, s.waitErr)
    else (s, none)

/-! ## Plugin engine -/

/-- Outcome of one registered handler invocation `fn(ctx, ev.Data)`:
a non-nil error with its message; success with a nil `any` result; or success
with a non-nil result together with its `json.Marshal` rendering (`none` when
marshalling failed — the error is discarded by `dispatch`). -/
inductive HandlerOutcome where
  | failure (msg : String)
  | successNil
  | successVal (marshaled : RawMsg)
deriving DecidableEq, Repr

/-- A registered endpoint as `dispatch` sees it: raw payload in, outcome out. -/
abbrev HandlerFn := RawMsg → HandlerOutcome

/-- Response envelope built by `(*Plugin).dispatch` for one request: an
unregistered method yields `err = "unknown method: <name>"`; a handler error
copies its message into `err`; a non-nil result is marshalled into `data`; a
nil result leaves both fields empty. The envelope always echoes the id. -/
def dispatchResponse (endpoints : List (String × HandlerFn)) (ev : Envelope) :
    Envelope :=
  match endpoints.lookup ev.method with
  | none => { id := ev.id, error := "unknown method: " ++ ev.method }
  | some fn =>
    match fn ev.data with
    | .failure msg => { id := ev.id, error := msg }
    | .successNil => { id := ev.id }
    | .successVal m => { id := ev.id, data := m }

/-- Result of a full `dispatch`: the encoded response, or the panic raised
when `p.enc.Encode(out)` fails. -/
inductive DispatchOutcome where
  | sent (out : Envelope)
  | panicked (msg : String)
deriving DecidableEq, Repr

/-- Full `dispatch` including the encode step: `encodeErr` is the result of
`p.enc.Encode(out)`; an encode failure panics (with the unknown-method wording
on that branch), never returns. -/
def dispatchEmit (endpoints : List (String × HandlerFn)) (ev : Envelope)
    (encodeErr : Option String) : DispatchOutcome :=
  match encodeErr with
  | some e =>
    if (endpoints.lookup ev.method).isNone then
      .panicked ("encoding unknown method response: " ++ e)
    else
      .panicked ("encoding response: " ++ e)
  | none => .sent (dispatchResponse endpoints ev)

/-- Mutable state of `(*Plugin).Run`: the cancellation-control table keyed by
request id (`p.cancel`), each control naming the handle of the cancellable
context it cancels; the set of context handles already cancelled (a
`context.CancelFunc` that ran marks its context done); a fresh-handle counter;
and the requests handed to `go p.dispatch`. -/
structure PluginState where
  cancelTbl : List (String × Nat)
  doneCtx : List Nat
  nextCtx : Nat
  dispatched : List Envelope
deriving DecidableEq, Repr

/-- Cancellation branch of `(*Plugin).Run` (`case e.Cancel != ""`): when a
control is registered under the id it is invoked (its context handle becomes
done) and its entry deleted; an unknown id changes nothing. The second
component is the reply encoded for the message — always `none`. -/
def onCancelEnvelope (st : PluginState) (cid : String) :
    PluginState × Option Envelope :=
  match st.cancelTbl.lookup cid with
  | some h =>
    ({ st with cancelTbl := eraseKey st.cancelTbl cid, doneCtx := h :: st.doneCtx },
      none)
  | none => (st, none)

/-- Request branch of `(*Plugin).Run`: derives a cancellable context, records
its control under the request id (overwriting any live entry), and schedules
the envelope for a concurrent `dispatch`. -/
def onRequestEnvelope (st : PluginState) (e : Envelope) : PluginState :=
  { st with
    cancelTbl := insertKey st.cancelTbl e.id st.nextCtx
    nextCtx := st.nextCtx + 1
    dispatched := st.dispatched ++ [e] }

/-- One iteration's input to the plugin's dispatch loop: the root context was
observed done at the top, the decode failed (stdin closed or malformed), or an
envelope was decoded. -/
inductive PluginEvent where
  | ctxDone
  | decodeFail
  | env (e : Envelope)
deriving DecidableEq, Repr

/-- Result of `(*Plugin).Run`: still looping (inputs exhausted), returned with
a process exit code, or panicked. -/
inductive PluginRunOutcome where
  | looping (st : PluginState)
  | exit (code : Int) (st : PluginState)
  | panicked (msg : String)
deriving DecidableEq, Repr

/-- Dispatch loop of `(*Plugin).Run`: a done root context or a decode failure
returns 0; a cancel envelope is handled in-loop with no reply and the loop
continues; an envelope with neither cancel nor id is a fatal protocol
violation; any other envelope is registered and dispatched concurrently. -/
def pluginRunLoop (st : PluginState) : List PluginEvent → PluginRunOutcome
  | [] => .looping st
  | .ctxDone :: _ => .exit 0 st
  | .decodeFail :: _ => .exit 0 st
  | .env e :: rest =>
    if e.cancel ≠ "" then pluginRunLoop (onCancelEnvelope st e.cancel).1 rest
    else if e.id = "" then
      .panicked "protocol violation: both \"id\" and \"cancel\" empty"
    else pluginRunLoop (onRequestEnvelope st e) rest

/-- Entry of `(*Plugin).Run`: `p.running.Swap(true)` panics on a second Run,
otherwise the dispatch loop runs. -/
def pluginRun (running : Bool) (st : PluginState) (events : List PluginEvent) :
    PluginRunOutcome :=
  if running then .panicked "plugin is already running"
  else pluginRunLoop st events

/-! ## Encode call sites (write-serialization structure) -/

/-- One source location calling `(json.Encoder).Encode` on a stream shared
between concurrent producers, with the mutexes held at that call. -/
structure EncodeSite where
  owner : String
  mutexesHeld : List String
deriving DecidableEq, Repr

/-- The four encode call sites of plugger.go on shared encoders. `Call`
releases `h.mu` before encoding the request and holds nothing when encoding
the cancel message; `dispatch` releases `p.lockCancel` before building and
encoding either response. -/
def encodeSites : List EncodeSite :=
  [⟨"Call request send", []⟩,
   ⟨"Call cancel notification", []⟩,
   ⟨"dispatch unknown-method response", []⟩,
   ⟨"dispatch handler response", []⟩]

/-! ## Map lemmas -/

/-- Deleting a key removes every binding for it. -/
theorem lookup_eraseKey_self {α : Type} (m : List (String × α)) (k : String) :
    (eraseKey m k).lookup k = none := by
  induction m with
  | nil => rfl
  | cons p m ih =>
    by_cases h : p.1 = k
    · simpa [eraseKey, List.filter_cons, h] using ih
    · simp only [eraseKey, List.filter_cons] at ih ⊢
      simp only [h, decide_not, ite_not]
      simp [List.lookup, show (k == p.1) = false by simpa [beq_iff_eq] using Ne.symm h, ih]
      exact fun a b _ hak hka => hak hka.symm

/-- Lookup after the broadcast close maps through `closeSlot`. -/
theorem lookup_broadcastClose (pending : List (String × SlotState)) (id : String) :
    (broadcastClose pending).lookup id = (pending.lookup id).map closeSlot := by
  induction pending with
  | nil => rfl
  | cons p rest ih =>
    by_cases h : id == p.1
    · simp [broadcastClose, List.lookup, h]
    · simp [broadcastClose, List.lookup, h] at ih ⊢
      exact ih

/-! ## Claims -/

/-- C1 (counterexample): with the caller's context done and the cancel-envelope
encode failing, `Call`'s cancellation branch returns the encode error, not the
context's own cancellation error — refuting "an encode failure does not change
the returned error". -/
theorem c1_encode_failure_changes_error :
    (callOnCtxDone [("1", SlotState.waiting)] "1"
        (some "write: broken pipe") "context canceled").2.2 =
      CallError.encodeFailed "write: broken pipe" ∧
    CallError.encodeFailed "write: broken pipe" ≠
      CallError.ctxErr "context canceled" :=
  ⟨rfl, by decide⟩

/-- C1 (amended): when the caller's context becomes done first, `Call` removes
the Outstanding Call entry and passes a cancellation envelope carrying the same
identifier to the encoder; it returns the context's cancellation error when
that encode succeeds, and the encode error itself when it fails. -/
theorem c1_cancel_branch_characterization
    (pending : List (String × SlotState)) (id : String)
    (encodeErr : Option String) (ctxError : String) :
    (callOnCtxDone pending id encodeErr ctxError).1.lookup id = none ∧
    (callOnCtxDone pending id encodeErr ctxError).2.1 = { cancel := id } ∧
    (callOnCtxDone pending id encodeErr ctxError).2.2 =
      (match encodeErr with
       | none => CallError.ctxErr ctxError
       | some e => CallError.encodeFailed e) := by
  cases encodeErr <;>
    exact ⟨lookup_eraseKey_self pending id, rfl, rfl⟩

/-- C2 (counterexample): a registered handler that succeeds with a nil result
yields a response envelope carrying neither `err` nor `data` — refuting
"a response carries exactly one of `err` or `data`" and in particular
"if the handler succeeds the response has data". -/
theorem c2_nil_result_counterexample :
    (dispatchResponse [("nilres", fun _ => HandlerOutcome.successNil)]
        { id := "1", method := "nilres" }).error = "" ∧
    (dispatchResponse [("nilres", fun _ => HandlerOutcome.successNil)]
        { id := "1", method := "nilres" }).data = none :=
  ⟨rfl, rfl⟩

/-- C2 (amended): a response never carries both `err` and `data`; it echoes the
request id; on handler failure `err` is the error's message and `data` absent;
on success `data` is set exactly when the result is non-nil (to its marshalled
form, absent if marshalling failed) and `err` is empty; a nil-result success
carries neither field. -/
theorem c2_response_err_data_exclusive
    (endpoints : List (String × HandlerFn)) (ev : Envelope) :
    ((dispatchResponse endpoints ev).error = "" ∨
      (dispatchResponse endpoints ev).data = none) ∧
    (dispatchResponse endpoints ev).id = ev.id ∧
    (∀ fn, endpoints.lookup ev.method = some fn →
      ((∀ msg, fn ev.data = HandlerOutcome.failure msg →
          dispatchResponse endpoints ev = { id := ev.id, error := msg }) ∧
       (fn ev.data = HandlerOutcome.successNil →
          dispatchResponse endpoints ev = { id := ev.id }) ∧
       (∀ m, fn ev.data = HandlerOutcome.successVal m →
          dispatchResponse endpoints ev = { id := ev.id, data := m }))) := by
  unfold dispatchResponse
  cases hl : endpoints.lookup ev.method with
  | none => simp
  | some fn =>
    cases hf : fn ev.data with
    | failure msg => simp [hf]
    | successNil => simp [hf]
    | successVal m => simp [hf]

/-- C2 (witness): the amended theorem applied to a handler succeeding with a
marshalled non-nil result. -/
theorem c2_response_err_data_exclusive_witness :
    dispatchResponse [("m", fun _ => HandlerOutcome.successVal (some "5"))]
        { id := "1", method := "m" } = { id := "1", data := some "5" } :=
  (((c2_response_err_data_exclusive
      [("m", fun _ => HandlerOutcome.successVal (some "5"))]
      { id := "1", method := "m" }).2.2
    (fun _ => HandlerOutcome.successVal (some "5")) rfl).2.2) (some "5") rfl

/-- C3 (counterexample): on a freshly constructed host that was never started,
`Call` blocks forever on the startup gate (`h.wgRun.Wait()` with the counter
still at 1) instead of failing immediately with the "closed" error. -/
theorem c3_unstarted_call_blocks :
    callStart newHost = CallStart.blocked ∧
    CallStart.blocked ≠ CallStart.errClosed :=
  ⟨rfl, by decide⟩

/-- C3 (amended): `Call` fails immediately with the "closed" error on a host
whose startup gate has been released (a `RunPlugin` reached `Running`) and that
is no longer running; on a host never successfully started — never started, or
start failed before releasing the gate — `Call` blocks on the startup wait
instead. -/
theorem c3_call_gate_after_lifecycle (trace : List HostLifeEvent) :
    (HostLifeEvent.startSucceeded ∉ trace →
      callStart (hostGateAfter trace) = CallStart.blocked) ∧
    ((hostGateAfter trace).wgReleased = true →
      (hostGateAfter trace).running = false →
      callStart (hostGateAfter trace) = CallStart.errClosed) := by
  constructor
  · intro hmem
    have hg : hostGateAfter trace = newHost := by
      induction trace with
      | nil => rfl
      | cons e rest ih =>
        cases e with
        | startSucceeded => exact absurd (List.mem_cons_self _ _) hmem
        | startFailedEarly =>
          have := ih (fun hm => hmem (List.mem_cons_of_mem _ hm))
          simpa [hostGateAfter, List.foldl_cons, applyLife] using this
        | closed =>
          have := ih (fun hm => hmem (List.mem_cons_of_mem _ hm))
          simpa [hostGateAfter, List.foldl_cons, applyLife, newHost] using this
    rw [hg]; rfl
  · intro hw hr
    simp [callStart, hw, hr]

/-- C3 (witness): the amended theorem at a start-failed trace and at a
started-then-closed trace. -/
theorem c3_call_gate_after_lifecycle_witness :
    callStart (hostGateAfter [HostLifeEvent.startFailedEarly]) =
      CallStart.blocked ∧
    callStart (hostGateAfter
        [HostLifeEvent.startSucceeded, HostLifeEvent.closed]) =
      CallStart.errClosed :=
  ⟨(c3_call_gate_after_lifecycle [HostLifeEvent.startFailedEarly]).1 (by decide),
   (c3_call_gate_after_lifecycle
      [HostLifeEvent.startSucceeded, HostLifeEvent.closed]).2 rfl rfl⟩

/-- C4: when the host's demultiplexing loop hits a decode failure it closes
every currently-registered slot and terminates with the decode error as
`RunPlugin`'s result; every previously-waiting slot becomes closed-empty, the
blocked caller's single receive yields `ok = false`, and its delivery branch
returns the "closed" error (once, since the caller receives exactly once and
then returns). -/
theorem c4_decode_failure_broadcast {α : Type} (dec : String → Except String α)
    (pending : List (String × SlotState)) (e : String)
    (rest : List DecodeEvent) :
    runPluginStarted pending (DecodeEvent.fail e :: rest) =
      HostRunOutcome.terminated (broadcastClose pending) e ∧
    (∀ id, pending.lookup id = some SlotState.waiting →
      (broadcastClose pending).lookup id = some SlotState.closedEmpty ∧
      receiveSlot SlotState.closedEmpty = some none ∧
      (callOnDelivery dec (broadcastClose pending) id none).2 =
        Except.error CallError.closed) := by
  refine ⟨rfl, fun id hid => ⟨?_, rfl, rfl⟩⟩
  rw [lookup_broadcastClose, hid]
  rfl

/-- C4 (witness): the theorem at a table with one blocked caller and an
end-of-stream decode failure. -/
theorem c4_decode_failure_broadcast_witness :
    runPluginStarted [("1", SlotState.waiting)] [DecodeEvent.fail "EOF"] =
      HostRunOutcome.terminated [("1", SlotState.closedEmpty)] "EOF" ∧
    (callOnDelivery (fun s => (Except.error s : Except String Nat))
        [("1", SlotState.closedEmpty)] "1" none).2 =
      Except.error CallError.closed := by
  have h := c4_decode_failure_broadcast
    (fun s => (Except.error s : Except String Nat))
    [("1", SlotState.waiting)] "EOF" []
  exact ⟨h.1, (h.2 "1" rfl).2.2⟩

/-- C5: for a request naming an unregistered method, `dispatch` builds a
response whose `err` is exactly `"unknown method: "` followed by the method
name, and the host's response branch turns it into an `ErrorResponse` whose
message is exactly that string. -/
theorem c5_unknown_method_roundtrip {α : Type} (dec : String → Except String α)
    (endpoints : List (String × HandlerFn)) (ev : Envelope)
    (h : endpoints.lookup ev.method = none) :
    dispatchResponse endpoints ev =
      { id := ev.id, error := "unknown method: " ++ ev.method } ∧
    callOnResponse dec (dispatchResponse endpoints ev) =
      Except.error (CallError.errorResponse ("unknown method: " ++ ev.method)) ∧
    (CallError.errorResponse ("unknown method: " ++ ev.method)).message =
      "unknown method: " ++ ev.method := by
  have h1 : dispatchResponse endpoints ev =
      { id := ev.id, error := "unknown method: " ++ ev.method } := by
    unfold dispatchResponse
    rw [h]
  have hne : ("unknown method: " ++ ev.method) ≠ "" := by
    intro hcontra
    have hlen := congrArg String.length hcontra
    rw [String.length_append] at hlen
    have h16 : "unknown method: ".length = 16 := rfl
    have h0 : "".length = 0 := rfl
    rw [h16, h0] at hlen
    omega
  refine ⟨h1, ?_, rfl⟩
  rw [h1]
  simp [callOnResponse, hne]

/-- C5 (witness): calling `does_not_exist` against an empty registry yields the
error message exactly "unknown method: does_not_exist". -/
theorem c5_unknown_method_roundtrip_witness :
    callOnResponse (fun _ => (Except.ok 0 : Except String Nat))
        (dispatchResponse [] { id := "1", method := "does_not_exist" }) =
      Except.error (CallError.errorResponse "unknown method: does_not_exist") ∧
    (CallError.errorResponse "unknown method: does_not_exist").message =
      "unknown method: does_not_exist" := by
  have h := c5_unknown_method_roundtrip
    (fun _ => (Except.ok 0 : Except String Nat))
    [] { id := "1", method := "does_not_exist" } rfl
  have happ : "unknown method: " ++ "does_not_exist" =
      "unknown method: does_not_exist" := rfl
  exact ⟨by rw [← happ]; exact h.2.1, by rw [← happ]; exact h.2.2⟩

/-- C6: the plugin loop's handling of a cancellation envelope — no reply is
ever encoded for it; afterwards no control is registered under the id; the
dispatched-request list is untouched; if a control was registered, it was
invoked (its context handle is marked done) and its entry removed, and if not,
the state is entirely unchanged (a no-op, not an error). -/
theorem c6_cancel_envelope_semantics (st : PluginState) (cid : String) :
    (onCancelEnvelope st cid).2 = none ∧
    (onCancelEnvelope st cid).1.cancelTbl.lookup cid = none ∧
    (onCancelEnvelope st cid).1.dispatched = st.dispatched ∧
    (match st.cancelTbl.lookup cid with
     | some h =>
        (onCancelEnvelope st cid).1.cancelTbl = eraseKey st.cancelTbl cid ∧
        (onCancelEnvelope st cid).1.doneCtx = h :: st.doneCtx ∧
        h ∈ (onCancelEnvelope st cid).1.doneCtx
     | none => (onCancelEnvelope st cid).1 = st) ∧
    (∀ (rest : List PluginEvent) (e : Envelope),
      e.cancel = cid → cid ≠ "" →
      pluginRunLoop st (PluginEvent.env e :: rest) =
        pluginRunLoop (onCancelEnvelope st cid).1 rest) := by
  have hloop : ∀ (rest : List PluginEvent) (e : Envelope),
      e.cancel = cid → cid ≠ "" →
      pluginRunLoop st (PluginEvent.env e :: rest) =
        pluginRunLoop (onCancelEnvelope st cid).1 rest := by
    intro rest e hce hne
    simp only [pluginRunLoop, hce]
    rw [if_pos hne]
  cases hl : st.cancelTbl.lookup cid with
  | none => exact ⟨by simp [onCancelEnvelope, hl], by simp [onCancelEnvelope, hl],
      by simp [onCancelEnvelope, hl], by simp [onCancelEnvelope, hl], hloop⟩
  | some h =>
    refine ⟨?_, ?_, ?_, ?_, hloop⟩ <;>
      simp [onCancelEnvelope, hl, lookup_eraseKey_self]

/-- C6 (witness): a cancel envelope for the registered identifier "1" cancels
its context handle, deletes the entry, sends no reply, and the loop continues;
a cancel for the unknown identifier "9" is a no-op. -/
theorem c6_cancel_envelope_semantics_witness :
    pluginRunLoop ⟨[("1", 0)], [], 1, []⟩ [PluginEvent.env { cancel := "1" }] =
      PluginRunOutcome.looping ⟨[], [0], 1, []⟩ ∧
    onCancelEnvelope ⟨[("1", 0)], [], 1, []⟩ "9" =
      (⟨[("1", 0)], [], 1, []⟩, none) := by
  have h := c6_cancel_envelope_semantics ⟨[("1", 0)], [], 1, []⟩ "1"
  have h9 := c6_cancel_envelope_semantics ⟨[("1", 0)], [], 1, []⟩ "9"
  refine ⟨?_, ?_⟩
  · rw [h.2.2.2.2 [] { cancel := "1" } rfl (by decide)]
    rfl
  · have hm : (⟨[("1", 0)], [], 1, []⟩ : PluginState).cancelTbl.lookup "9" =
        none := rfl
    have := h9.2.2.2.1
    rw [hm] at this
    have h2 := h9.1
    exact Prod.ext this h2

/-- C7 (counterexample): when the child's `Wait` reports an exit error, the
first `Close` returns that error while a second `Close` returns nil — so a
subsequent invocation does not return the same result as the single-invocation
case. -/
theorem c7_second_close_differs :
    (closeHost ⟨true, true, true, false, 0, some "exit status 1"⟩).2 =
      some "exit status 1" ∧
    (closeHost (closeHost
        ⟨true, true, true, false, 0, some "exit status 1"⟩).1).2 = none ∧
    (some "exit status 1" : Option String) ≠ none :=
  ⟨rfl, rfl, by decide⟩

/-- C7 (amended): `Close` is idempotent in its effects — only the first
invocation flips `running`, closes stdin and waits for the child (a second
invocation changes no state, in particular never waits again and cannot
panic); every subsequent invocation returns nil, which equals the first
invocation's result only when that result was itself nil. -/
theorem c7_close_idempotent_effects (s : HostProc) :
    closeHost (closeHost s).1 = ((closeHost s).1, none) ∧
    (closeHost s).1.running = false := by
  have h1 : (closeHost s).1.running = false := by
    unfold closeHost
    by_cases hr : s.running <;> by_cases hc : s.hasCloser <;>
      by_cases hm : s.hasCmd <;> simp [hr, hc, hm]
  have h2 : ∀ t : HostProc, t.running = false → closeHost t = (t, none) := by
    intro t ht
    unfold closeHost
    cases t
    simp_all
  exact ⟨h2 _ h1, h1⟩

/-- C8: none of the four `(json.Encoder).Encode` call sites on the shared
outbound streams holds any mutex — `Call` releases `h.mu` before encoding the
request and holds nothing around the cancel-message encode, and `dispatch`
releases `p.lockCancel` before either response encode — so no mutual-exclusion
discipline serializes concurrent producers' writes. -/
theorem c8_encode_sites_unguarded :
    encodeSites.all (fun s => s.mutexesHeld.isEmpty) = true := rfl

/-- C9: a registered handler succeeding with a nil result makes `dispatch`
emit a response with neither `err` nor `data`; the host's response branch then
unmarshals the absent payload, fails, and returns the malformed-response error
wrapping the JSON decoder's end-of-input failure — not a zero-valued success. -/
theorem c9_nil_result_malformed {α : Type} (dec : String → Except String α)
    (endpoints : List (String × HandlerFn)) (ev : Envelope) (fn : HandlerFn)
    (hf : endpoints.lookup ev.method = some fn)
    (hn : fn ev.data = HandlerOutcome.successNil) :
    dispatchResponse endpoints ev = { id := ev.id } ∧
    (dispatchResponse endpoints ev).error = "" ∧
    (dispatchResponse endpoints ev).data = none ∧
    callOnResponse dec (dispatchResponse endpoints ev) =
      Except.error (CallError.malformedResponse "unexpected end of JSON input") ∧
    (CallError.malformedResponse "unexpected end of JSON input").message =
      "malformed response: unexpected end of JSON input" := by
  have h1 : dispatchResponse endpoints ev = { id := ev.id } := by
    unfold dispatchResponse
    rw [hf]
    simp only [hn]
  refine ⟨h1, by rw [h1], by rw [h1], ?_, by decide⟩
  rw [h1]
  simp [callOnResponse, unmarshal]

/-- C9 (witness): the theorem at a concrete nil-result handler. -/
theorem c9_nil_result_malformed_witness :
    callOnResponse (fun _ => (Except.ok 0 : Except String Nat))
        (dispatchResponse [("nilmeth", fun _ => HandlerOutcome.successNil)]
          { id := "2", method := "nilmeth" }) =
      Except.error
        (CallError.malformedResponse "unexpected end of JSON input") :=
  (c9_nil_result_malformed (fun _ => (Except.ok 0 : Except String Nat))
      [("nilmeth", fun _ => HandlerOutcome.successNil)]
      { id := "2", method := "nilmeth" }
      (fun _ => HandlerOutcome.successNil) rfl rfl).2.2.2.1

/-- Helper for C10: the dispatch loop's only normal returns carry code 0. -/
theorem pluginRunLoop_exit_code (events : List PluginEvent) :
    ∀ (st : PluginState) (code : Int) (st2 : PluginState),
      pluginRunLoop st events = PluginRunOutcome.exit code st2 → code = 0 := by
  induction events with
  | nil =>
    intro st code st2 h
    exact absurd h (by simp [pluginRunLoop])
  | cons e rest ih =>
    intro st code st2 h
    cases e with
    | ctxDone =>
      simp only [pluginRunLoop, PluginRunOutcome.exit.injEq] at h
      exact h.1.symm
    | decodeFail =>
      simp only [pluginRunLoop, PluginRunOutcome.exit.injEq] at h
      exact h.1.symm
    | env ev =>
      simp only [pluginRunLoop] at h
      by_cases hc : ev.cancel ≠ ""
      · rw [if_pos hc] at h
        exact ih _ _ _ h
      · rw [if_neg hc] at h
        by_cases hid : ev.id = ""
        · rw [if_pos hid] at h
          exact absurd h (by simp)
        · rw [if_neg hid] at h
          exact ih _ _ _ h

/-- C10: whenever `(*Plugin).Run` returns normally it returns exit code 0;
a second `Run` on the same plugin panics instead of returning, and a failure
to encode a response inside `dispatch` panics as well — neither produces a
non-zero return value of `Run`. -/
theorem c10_run_exit_only_zero (running : Bool) (st : PluginState)
    (events : List PluginEvent) :
    (∀ (code : Int) (st2 : PluginState),
      pluginRun running st events = PluginRunOutcome.exit code st2 →
        code = 0) ∧
    (running = true →
      pluginRun running st events =
        PluginRunOutcome.panicked "plugin is already running") ∧
    (∀ (endpoints : List (String × HandlerFn)) (ev : Envelope) (err : String),
      ∃ m, dispatchEmit endpoints ev (some err) =
        DispatchOutcome.panicked m) := by
  refine ⟨?_, ?_, ?_⟩
  · intro code st2 h
    unfold pluginRun at h
    by_cases hr : running
    · rw [if_pos hr] at h
      exact absurd h (by simp)
    · rw [if_neg hr] at h
      exact pluginRunLoop_exit_code events st code st2 h
  · intro hr
    simp [pluginRun, hr]
  · intro endpoints ev err
    unfold dispatchEmit
    by_cases hl : (endpoints.lookup ev.method).isNone
    · exact ⟨"encoding unknown method response: " ++ err, by simp [hl]⟩
    · exact ⟨"encoding response: " ++ err, by simp [hl]⟩

/-- C10 (witness): the theorem at a run whose stdin closes immediately. -/
theorem c10_run_exit_only_zero_witness :
    pluginRun false ⟨[], [], 0, []⟩ [PluginEvent.decodeFail] =
      PluginRunOutcome.exit 0 ⟨[], [], 0, []⟩ ∧ (0 : Int) = 0 :=
  ⟨rfl,
   (c10_run_exit_only_zero false ⟨[], [], 0, []⟩ [PluginEvent.decodeFail]).1
     0 ⟨[], [], 0, []⟩ rfl⟩

end Plugger
